import Mathlib

/-
Shallow embedding of the reading-session simulator
(`Proyecto1/01_simular_datos_lectura.py`, class `SimuladorSesionesLectura`).

Modelling conventions:
* Python floats are embedded as `ℚ` (the script only adds, multiplies and
  divides finite values).
* `datetime` values are embedded as a calendar day (days since an arbitrary
  epoch, an integer) together with a minute-of-day; `weekday()` becomes
  `day % 7` (0..4 weekday, 5..6 weekend, matching the 5/2 split of the
  source).  Sub-minute components (seconds are zeroed by the source,
  microseconds are irrelevant to every claim) are dropped.
* Each call to the global `np.random` stream is embedded as one field of an
  explicit `Sorteos` (draws) record, so every theorem quantifies over all
  values the sampler can produce:
  - `np.random.randint(a, b)` with raw draw `r : ℕ` yields `a + r % (b-a)`,
    whose image is exactly `[a, b)`;
  - `np.random.choice(xs, p)` (all listed probabilities are positive) with
    raw draw `r` yields the element at index `r % xs.length`;
  - `np.random.uniform(a, b)` / `np.random.random()` with raw draw `u : ℚ`
    yields `a + (b - a) * unit01 u` where `unit01` clamps to `[0,1]`, whose
    image is exactly the legal closed range;
  - `np.random.normal(mu, sigma)` with raw standard draw `z : ℚ`
    (unconstrained, as a normal sample can be any real) yields
    `mu + sigma * z`.
* Python's salted string hash (`hash(str(user_id))`, salt fixed per process)
  is embedded as an explicit parameter `hf : String → ℤ`; `%` on `ℤ` in Lean
  and on `int` in Python agree (both yield a representative in `[0, n)` for
  a positive modulus).
* Python `int(x)` (truncation toward zero) is `truncInt`.
* `pandas` scalar fields are embedded by `Campo`: a column can be absent
  (`falta`, where `row.get` returns the default), present but NaN (`nan`,
  where comparisons are `False` and `pd.isna` is `True`), or a value.
* The only statement the function `simular_para_interaccion` can raise on is
  `int(rating)` with `rating = NaN`; the embedding returns `Except`, with
  `.error` exactly on Python's `ValueError`.
-/

namespace SimLectura

/-- A point in time: days since an arbitrary epoch plus minute of day.
`weekday` is `dia % 7`; hours/minutes are packed into `minuto`. -/
structure FechaHora where
  dia : ℤ
  minuto : ℕ
deriving DecidableEq, Repr

/-- Total minutes since the epoch, used to compare timestamps. -/
def FechaHora.minutosTotales (t : FechaHora) : ℤ :=
  t.dia * 1440 + t.minuto

/-- One record of the global `np.random` stream: every random draw the
simulator makes for one interaction, as raw values (see the header comment
for how each `np.random` primitive consumes its raw draw). -/
structure Sorteos where
  rNumSes : ℕ
  rDias : ℕ
  uProg : ℚ
  rGap : ℕ → ℕ
  rHora : ℕ → ℕ
  rMin : ℕ → ℕ
  zPag : ℕ → ℚ
  uVel : ℕ → ℚ
  zRuido : ℕ → ℚ
  uFactor : ℕ → ℚ
  uFlip : ℚ

/-- Clamp to the unit interval: the set of values `np.random.random()` (and a
rescaled `np.random.uniform`) can take, indexed by a raw rational draw. -/
def unit01 (u : ℚ) : ℚ := max 0 (min 1 u)

/-- `np.random.uniform(a, b)` given the raw unit draw `u`. -/
def uniforme (a b u : ℚ) : ℚ := a + (b - a) * unit01 u

/-- `np.random.normal(mu, sigma)` given the raw standard-normal draw `z`. -/
def normalMuestra (mu sigma z : ℚ) : ℚ := mu + sigma * z

/-- Python `int(x)`: truncation toward zero. -/
def truncInt (q : ℚ) : ℤ := if 0 ≤ q then ⌊q⌋ else ⌈q⌉

/-- A pandas cell: column absent, present-but-NaN, or an actual value. -/
inductive Campo (α : Type) where
  | falta
  | nan
  | val (a : α)
deriving DecidableEq

/-- `row.get(col, default)` for a numeric column: `none` models NaN. -/
def Campo.obtener (c : Campo ℚ) (defecto : ℚ) : Option ℚ :=
  match c with
  | .falta => some defecto
  | .nan => none
  | .val q => some q

/-- `row.get('genres', 'default')`: `none` models a NaN genre cell
(whose lookup in `palabras_por_pagina` falls back to the default). -/
def Campo.obtenerGenero (c : Campo String) : Option String :=
  match c with
  | .falta => some "default"
  | .nan => none
  | .val s => some s

/-- The `num_pages` cell may also hold a non-numeric string, which the
source's `try: int(float(...)) except: 300` turns into the default. -/
inductive CampoPaginas where
  | falta
  | nan
  | invalido
  | val (q : ℚ)
deriving DecidableEq

/-- `num_pages = row.get('num_pages', 300)` then
`int(float(num_pages)) if pd.notna(num_pages) else 300`, with the
`except` branch also yielding 300 (lines 585-589 of the source). -/
def CampoPaginas.valor : CampoPaginas → ℤ
  | .falta => 300
  | .nan => 300
  | .invalido => 300
  | .val q => truncInt q

/-- Python `x == c` where `x` may be NaN (NaN comparisons are `False`). -/
def pyEq (x : Option ℚ) (c : ℚ) : Bool :=
  match x with
  | none => false
  | some q => decide (q = c)

/-- Python `x >= c` with NaN yielding `False`. -/
def pyGe (x : Option ℚ) (c : ℚ) : Bool :=
  match x with
  | none => false
  | some q => decide (c ≤ q)

/-- Python `x <= c` with NaN yielding `False`. -/
def pyLe (x : Option ℚ) (c : ℚ) : Bool :=
  match x with
  | none => false
  | some q => decide (q ≤ c)

/-- Python `x > c` with NaN yielding `False`. -/
def pyGt (x : Option ℚ) (c : ℚ) : Bool :=
  match x with
  | none => false
  | some q => decide (c < q)

/-- Python `x < c` with NaN yielding `False`. -/
def pyLt (x : Option ℚ) (c : ℚ) : Bool :=
  match x with
  | none => false
  | some q => decide (q < c)

/-- One row of the merged interaction table, as read by
`simular_para_interaccion` (the source indexes `book_id`/`user_id`
directly and `.get`s every other column). -/
structure Fila where
  book_id : ℤ
  user_id : ℤ
  is_read : Campo ℚ
  rating : Campo ℚ
  num_pages : CampoPaginas
  genres : Campo String
  abandono_score : Campo ℚ
  engagement_score : Campo ℚ
  complejidad_score : Campo ℚ
  ritmo_score : Campo ℚ
deriving DecidableEq

/-- `self.velocidad_lectura_palabras_min`: words-per-minute range per
reader profile (the dictionary is only ever indexed with the three
profile strings produced by `determinar_perfil_lector`). -/
def velocidad_lectura_palabras_min (perfil : String) : ℚ × ℚ :=
  if perfil = "rapido" then (250, 350)
  else if perfil = "medio" then (180, 250)
  else (120, 180)

/-- `self.palabras_por_pagina` with the `.get(genero, default)` lookup;
`none` (a NaN genre cell) also falls back to the default of 260. -/
def palabras_por_pagina (genero : Option String) : ℚ :=
  match genero with
  | some "fiction" => 280
  | some "non-fiction" => 320
  | some "poetry" => 180
  | some "comics" => 100
  | _ => 260

/-- `self.prob_abandono.get(r, 0.5)`: base abandonment probability by
integer rating. -/
def prob_abandono (r : ℤ) : ℚ :=
  if r = 1 then 85/100
  else if r = 2 then 70/100
  else if r = 3 then 40/100
  else if r = 4 then 15/100
  else if r = 5 then 5/100
  else 50/100

/-- `determinar_perfil_lector`: `hash(str(user_id)) % 100`, cut at 20 and
75.  `hf` is the process's (salted) string hash. -/
def determinar_perfil_lector (hf : String → ℤ) (user_id : ℤ) : String :=
  if hf (toString user_id) % 100 < 20 then "rapido"
  else if hf (toString user_id) % 100 < 75 then "medio"
  else "lento"

/-- `calcular_duracion_sesion`: words = pages × words-per-page, a speed
uniform in the profile's range, Gaussian noise with sigma 10% of the base
duration, floored at 5 minutes.  `uVel` and `zRuido` are the two raw
draws this call consumes. -/
def calcular_duracion_sesion (paginas_leidas : ℤ) (perfil : String)
    (genero : Option String) (uVel zRuido : ℚ) : ℚ :=
  let palabras_pag := palabras_por_pagina genero
  let total_palabras := (paginas_leidas : ℚ) * palabras_pag
  let velocidad_promedio :=
    uniforme (velocidad_lectura_palabras_min perfil).1
      (velocidad_lectura_palabras_min perfil).2 uVel
  let duracion_base := total_palabras / velocidad_promedio
  let ruido := normalMuestra 0 (duracion_base * (1/10)) zRuido
  max 5 (duracion_base + ruido)

/-- Loop body of `generar_patron_temporal_sesiones`: session `i` advances
the current day by a gap drawn from `[0,1,1,2,3]` (first 30% of sessions)
or `[1,2,3,4,5,7]` (rest), then picks an hour from the weekday peak list
or the weekend range `8..23`, and a minute in `[0,60)`.  Recursion is on
the remaining session count `fuel`. -/
def patronAux (d : Sorteos) (num_sesiones : ℕ) : ℕ → ℕ → ℤ → List FechaHora
  | _, 0, _ => []
  | i, fuel + 1, dia =>
    let gap : ℕ :=
      if (i : ℚ) < (num_sesiones : ℚ) * (3/10) then
        [0, 1, 1, 2, 3].getD (d.rGap i % 5) 0
      else
        [1, 2, 3, 4, 5, 7].getD (d.rGap i % 6) 0
    let dia2 := dia + (gap : ℤ)
    let hora : ℕ :=
      if dia2 % 7 < 5 then
        [7, 8, 9, 12, 13, 19, 20, 21, 22, 23].getD (d.rHora i % 10) 0
      else
        8 + d.rHora i % 16
    ⟨dia2, hora * 60 + d.rMin i % 60⟩ ::
      patronAux d num_sesiones (i + 1) fuel dia2

/-- `generar_patron_temporal_sesiones(num_sesiones, fecha_inicio)`. -/
def generar_patron_temporal_sesiones (num_sesiones : ℕ)
    (fecha_inicio : FechaHora) (d : Sorteos) : List FechaHora :=
  patronAux d num_sesiones 0 num_sesiones fecha_inicio.dia

/-- One output record (the dict built at lines 329-340 of the source). -/
structure Sesion where
  user_id : ℤ
  book_id : ℤ
  session_start : FechaHora
  session_end : ℚ
  duration_minutes : ℚ
  progress_start : ℤ
  progress_end : ℤ
  pages_read : ℤ
  completion_pct_start : ℚ
  completion_pct_end : ℚ
deriving DecidableEq, Repr

/-- Page allocation for session `i` of the completed path (lines 294-320):
the last session (index `num_sesiones - 1`) absorbs every remaining page;
earlier sessions draw `max(1, int(normal(promedio * factor, promedio * 0.3)))`
with factor 1.3 for the first 30% of sessions, capped at the remaining
pages. -/
def paginasCompletado (d : Sorteos) (num_pages : ℤ) (num_sesiones i : ℕ)
    (progreso_acumulado : ℤ) : ℤ :=
  if i = num_sesiones - 1 then
    num_pages - progreso_acumulado
  else
    let factor : ℚ :=
      if (i : ℚ) < (num_sesiones : ℚ) * (3/10) then 13/10 else 1
    let paginas_restantes := num_pages - progreso_acumulado
    let paginas_promedio : ℚ :=
      (paginas_restantes : ℚ) / ((num_sesiones - i : ℕ) : ℚ)
    min (max 1 (truncInt (normalMuestra (paginas_promedio * factor)
      (paginas_promedio * (3/10)) (d.zPag i)))) paginas_restantes

/-- Session count of the completed path: `randint` bracket by book length
(lines 270-277). -/
def numSesionesCompletado (num_pages : ℤ) (d : Sorteos) : ℕ :=
  if num_pages < 150 then 3 + d.rNumSes % 5
  else if num_pages < 300 then 6 + d.rNumSes % 9
  else if num_pages < 500 then 10 + d.rNumSes % 15
  else 15 + d.rNumSes % 25

/-- Session loop of `simular_sesiones_completado` (lines 293-345).  `i` is
the session index, the last argument the accumulated progress. -/
def completadoAux (d : Sorteos) (book_id user_id num_pages : ℤ)
    (genero : Option String) (perfil : String) (num_sesiones : ℕ) :
    List FechaHora → ℕ → ℤ → List Sesion
  | [], _, _ => []
  | ts :: resto, i, progreso_acumulado =>
    let paginas_sesion : ℤ :=
      paginasCompletado d num_pages num_sesiones i progreso_acumulado
    let duracion_minutos :=
      calcular_duracion_sesion paginas_sesion perfil genero (d.uVel i) (d.zRuido i)
    { user_id := user_id
      book_id := book_id
      session_start := ts
      session_end := (ts.minutosTotales : ℚ) + duracion_minutos
      duration_minutes := duracion_minutos
      progress_start := progreso_acumulado
      progress_end := progreso_acumulado + paginas_sesion
      pages_read := paginas_sesion
      completion_pct_start := ((progreso_acumulado : ℚ) / (num_pages : ℚ)) * 100
      completion_pct_end :=
        (((progreso_acumulado + paginas_sesion : ℤ) : ℚ) / (num_pages : ℚ)) * 100 } ::
      completadoAux d book_id user_id num_pages genero perfil num_sesiones
        resto (i + 1) (progreso_acumulado + paginas_sesion)

/-- `simular_sesiones_completado`: session count by book-length bracket
(`randint(3,8)`, `(6,15)`, `(10,25)`, `(15,40)`), start `randint(30,365)`
days before `now`, then the session loop over the generated timestamps. -/
def simular_sesiones_completado (book_id user_id num_pages : ℤ)
    (genero : Option String) (rating : Option ℚ) (hf : String → ℤ)
    (ahora : FechaHora) (d : Sorteos) : List Sesion :=
  let perfil := determinar_perfil_lector hf user_id
  let num_sesiones : ℕ := numSesionesCompletado num_pages d
  let dias_atras : ℕ := 30 + d.rDias % 335
  let fecha_inicio : FechaHora := ⟨ahora.dia - dias_atras, ahora.minuto⟩
  let timestamps := generar_patron_temporal_sesiones num_sesiones fecha_inicio d
  completadoAux d book_id user_id num_pages genero perfil num_sesiones
    timestamps 0 0

/-- Page allocation for session `i` of the early-abandonment path (lines
397-417): target is `progreso_total` (not the whole book); the decay factor
is `1.2 - i / num_sesiones` and the noise sigma 40% of the mean. -/
def paginasTemprano (d : Sorteos) (progreso_total : ℤ) (num_sesiones i : ℕ)
    (progreso_acumulado : ℤ) : ℤ :=
  let paginas_restantes := progreso_total - progreso_acumulado
  if i = num_sesiones - 1 then
    paginas_restantes
  else
    let factor_decaimiento : ℚ := 12/10 - (i : ℚ) / (num_sesiones : ℚ)
    let paginas_promedio : ℚ :=
      (paginas_restantes : ℚ) / ((num_sesiones - i : ℕ) : ℚ)
    min (max 1 (truncInt (normalMuestra (paginas_promedio * factor_decaimiento)
      (paginas_promedio * (4/10)) (d.zPag i)))) paginas_restantes

/-- Session count of the early-abandonment path: `randint(1, 5)`. -/
def numSesionesTemprano (d : Sorteos) : ℕ := 1 + d.rNumSes % 4

/-- Target progress of the early-abandonment path:
`int(num_pages * uniform(0.05, 0.30))` (line 392). -/
def progresoTemprano (num_pages : ℤ) (d : Sorteos) : ℤ :=
  truncInt ((num_pages : ℚ) * uniforme (5/100) (30/100) d.uProg)

/-- Session loop of `simular_sesiones_abandono_temprano` (lines 396-440). -/
def tempranoAux (d : Sorteos) (book_id user_id num_pages progreso_total : ℤ)
    (genero : Option String) (perfil : String) (num_sesiones : ℕ) :
    List FechaHora → ℕ → ℤ → List Sesion
  | [], _, _ => []
  | ts :: resto, i, progreso_acumulado =>
    let paginas_sesion : ℤ :=
      paginasTemprano d progreso_total num_sesiones i progreso_acumulado
    let duracion_minutos :=
      calcular_duracion_sesion paginas_sesion perfil genero (d.uVel i) (d.zRuido i)
    { user_id := user_id
      book_id := book_id
      session_start := ts
      session_end := (ts.minutosTotales : ℚ) + duracion_minutos
      duration_minutes := duracion_minutos
      progress_start := progreso_acumulado
      progress_end := progreso_acumulado + paginas_sesion
      pages_read := paginas_sesion
      completion_pct_start := ((progreso_acumulado : ℚ) / (num_pages : ℚ)) * 100
      completion_pct_end :=
        (((progreso_acumulado + paginas_sesion : ℤ) : ℚ) / (num_pages : ℚ)) * 100 } ::
      tempranoAux d book_id user_id num_pages progreso_total genero perfil
        num_sesiones resto (i + 1) (progreso_acumulado + paginas_sesion)

/-- `simular_sesiones_abandono_temprano`: 1-4 sessions (`randint(1,5)`),
start `randint(30,180)` days ago, target progress
`int(num_pages * uniform(0.05, 0.30))`. -/
def simular_sesiones_abandono_temprano (book_id user_id num_pages : ℤ)
    (genero : Option String) (rating : Option ℚ) (hf : String → ℤ)
    (ahora : FechaHora) (d : Sorteos) : List Sesion :=
  let perfil := determinar_perfil_lector hf user_id
  let num_sesiones : ℕ := numSesionesTemprano d
  let dias_atras : ℕ := 30 + d.rDias % 150
  let fecha_inicio : FechaHora := ⟨ahora.dia - dias_atras, ahora.minuto⟩
  let timestamps := generar_patron_temporal_sesiones num_sesiones fecha_inicio d
  let progreso_total := progresoTemprano num_pages d
  tempranoAux d book_id user_id num_pages progreso_total genero perfil
    num_sesiones timestamps 0 0

/-- Page allocation for session `i` of the midway-abandonment path (lines
493-518): factor 0.5 with probability 0.3 (`np.random.random() < 0.3`),
else 1.0; noise sigma 50% of the mean. -/
def paginasMedio (d : Sorteos) (progreso_total : ℤ) (num_sesiones i : ℕ)
    (progreso_acumulado : ℤ) : ℤ :=
  let paginas_restantes := progreso_total - progreso_acumulado
  if i = num_sesiones - 1 then
    paginas_restantes
  else
    let factor : ℚ := if unit01 (d.uFactor i) < 3/10 then 1/2 else 1
    let paginas_promedio : ℚ :=
      (paginas_restantes : ℚ) / ((num_sesiones - i : ℕ) : ℚ)
    min (max 1 (truncInt (normalMuestra (paginas_promedio * factor)
      (paginas_promedio * (1/2)) (d.zPag i)))) paginas_restantes

/-- Session count of the midway-abandonment path: `randint(5, 15)`. -/
def numSesionesMedio (d : Sorteos) : ℕ := 5 + d.rNumSes % 10

/-- Target progress of the midway-abandonment path:
`int(num_pages * uniform(0.30, 0.70))` (line 488). -/
def progresoMedio (num_pages : ℤ) (d : Sorteos) : ℤ :=
  truncInt ((num_pages : ℚ) * uniforme (30/100) (70/100) d.uProg)

/-- Session loop of `simular_sesiones_abandono_medio` (lines 492-541). -/
def medioAux (d : Sorteos) (book_id user_id num_pages progreso_total : ℤ)
    (genero : Option String) (perfil : String) (num_sesiones : ℕ) :
    List FechaHora → ℕ → ℤ → List Sesion
  | [], _, _ => []
  | ts :: resto, i, progreso_acumulado =>
    let paginas_sesion : ℤ :=
      paginasMedio d progreso_total num_sesiones i progreso_acumulado
    let duracion_minutos :=
      calcular_duracion_sesion paginas_sesion perfil genero (d.uVel i) (d.zRuido i)
    { user_id := user_id
      book_id := book_id
      session_start := ts
      session_end := (ts.minutosTotales : ℚ) + duracion_minutos
      duration_minutes := duracion_minutos
      progress_start := progreso_acumulado
      progress_end := progreso_acumulado + paginas_sesion
      pages_read := paginas_sesion
      completion_pct_start := ((progreso_acumulado : ℚ) / (num_pages : ℚ)) * 100
      completion_pct_end :=
        (((progreso_acumulado + paginas_sesion : ℤ) : ℚ) / (num_pages : ℚ)) * 100 } ::
      medioAux d book_id user_id num_pages progreso_total genero perfil
        num_sesiones resto (i + 1) (progreso_acumulado + paginas_sesion)

/-- `simular_sesiones_abandono_medio`: 5-14 sessions (`randint(5,15)`),
start `randint(60,300)` days ago, target progress
`int(num_pages * uniform(0.30, 0.70))`. -/
def simular_sesiones_abandono_medio (book_id user_id num_pages : ℤ)
    (genero : Option String) (rating : Option ℚ) (hf : String → ℤ)
    (ahora : FechaHora) (d : Sorteos) : List Sesion :=
  let perfil := determinar_perfil_lector hf user_id
  let num_sesiones : ℕ := numSesionesMedio d
  let dias_atras : ℕ := 60 + d.rDias % 240
  let fecha_inicio : FechaHora := ⟨ahora.dia - dias_atras, ahora.minuto⟩
  let timestamps := generar_patron_temporal_sesiones num_sesiones fecha_inicio d
  let progreso_total := progresoMedio num_pages d
  medioAux d book_id user_id num_pages progreso_total genero perfil
    num_sesiones timestamps 0 0

/-- Lines 620-653 of the source: the rating-3 branch's abandonment
probability, the base table value adjusted by the four review-feature
rules and clamped to `[0,1]`.  Each score guard follows Python NaN
comparison semantics (`pyGt`/`pyLt`). -/
def prob_abandono_ajustada (r : ℤ) (abandono_score engagement_score
    complejidad_score ritmo_score : Option ℚ) : ℚ :=
  let p0 := prob_abandono r
  let p1 := if pyGt abandono_score 0
    then p0 + min (abandono_score.getD 0) 1 * (25/100) else p0
  let p2 := if pyGt engagement_score 0
    then p1 - min (engagement_score.getD 0) 1 * (15/100) else p1
  let p3 := if pyGt complejidad_score 0
    then p2 + min (complejidad_score.getD 0) 1 * (10/100) else p2
  let p4 := if pyLt ritmo_score 0
    then p3 + min |ritmo_score.getD 0| 1 * (8/100) else p3
  max 0 (min 1 p4)

/-- `simular_para_interaccion` (lines 543-671).  Returns `.error` exactly
where Python raises (`int(rating)` on NaN); every other path yields a
session list. -/
def simular_para_interaccion (fila : Fila) (hf : String → ℤ)
    (ahora : FechaHora) (d : Sorteos) : Except String (List Sesion) :=
  let is_read := fila.is_read.obtener 0
  let rating := fila.rating.obtener 3
  let num_pages := max 1 fila.num_pages.valor
  let genero := fila.genres.obtenerGenero
  let abandono_score := fila.abandono_score.obtener 0
  let engagement_score := fila.engagement_score.obtener 0
  let complejidad_score := fila.complejidad_score.obtener 0
  let ritmo_score := fila.ritmo_score.obtener 0
  if pyEq is_read 0 && rating.isNone then
    .ok []
  else if pyEq is_read 1 && pyGe rating 4 then
    .ok (simular_sesiones_completado fila.book_id fila.user_id num_pages
      genero rating hf ahora d)
  else if pyLe rating 2 then
    .ok (simular_sesiones_abandono_temprano fila.book_id fila.user_id num_pages
      genero rating hf ahora d)
  else
    match rating with
    | none => .error "ValueError: cannot convert float NaN to integer"
    | some rq =>
      let prob_aband := prob_abandono_ajustada (truncInt rq) abandono_score
        engagement_score complejidad_score ritmo_score
      if unit01 d.uFlip < prob_aband then
        if pyLt engagement_score (-(20/100)) then
          .ok (simular_sesiones_abandono_temprano fila.book_id fila.user_id
            num_pages genero rating hf ahora d)
        else
          .ok (simular_sesiones_abandono_medio fila.book_id fila.user_id
            num_pages genero rating hf ahora d)
      else
        .ok (simular_sesiones_completado fila.book_id fila.user_id num_pages
          genero rating hf ahora d)

/-! ### Observations on simulation results -/

/-- The session list of a simulation result (empty when Python raised). -/
def sesionesDe : Except String (List Sesion) → List Sesion
  | .ok l => l
  | .error _ => []

/-- Whether the simulation returned a list rather than raising. -/
def esExito : Except String (List Sesion) → Bool
  | .ok _ => true
  | .error _ => false

/-- The progress chain: starting from `p`, every session's
`progress_start` equals the accumulated value, `pages_read` is the
difference `progress_end - progress_start`, and the accumulator advances
to `progress_end`. -/
def cadenaB : ℤ → List Sesion → Bool
  | _, [] => true
  | p, s :: resto =>
    decide (s.progress_start = p) &&
    decide (s.pages_read = s.progress_end - s.progress_start) &&
    cadenaB s.progress_end resto

/-- Every session lasts at least 5 minutes. -/
def duracionesMin5B (l : List Sesion) : Bool :=
  l.all fun s => decide (5 ≤ s.duration_minutes)

/-- Every session reads a non-negative number of pages. -/
def paginasNoNegB (l : List Sesion) : Bool :=
  l.all fun s => decide (0 ≤ s.pages_read)

/-- Every session reads at least one page. -/
def paginasAlMenos1B (l : List Sesion) : Bool :=
  l.all fun s => decide (1 ≤ s.pages_read)

/-- `progress_end` of the last session (0 for an empty list). -/
def ultimaProgreso (l : List Sesion) : ℤ :=
  match l.getLast? with
  | some s => s.progress_end
  | none => 0

/-- `session_start` strictly increases between consecutive sessions. -/
def crecienteB : List Sesion → Bool
  | [] => true
  | [_] => true
  | a :: b :: resto =>
    decide (a.session_start.minutosTotales < b.session_start.minutosTotales) &&
    crecienteB (b :: resto)

/-- The day component of `session_start` never decreases between
consecutive sessions. -/
def diasNoDecrecientesB : List Sesion → Bool
  | [] => true
  | [_] => true
  | a :: b :: resto =>
    decide (a.session_start.dia ≤ b.session_start.dia) &&
    diasNoDecrecientesB (b :: resto)

/-- Day components of consecutive timestamps never decrease. -/
def parejasDiasB : List FechaHora → Bool
  | [] => true
  | [_] => true
  | t :: t2 :: resto =>
    decide (t.dia ≤ t2.dia) && parejasDiasB (t2 :: resto)

/-- Every timestamp's day is at least `p`, chained left to right. -/
def parejasDesdeB : ℤ → List FechaHora → Bool
  | _, [] => true
  | p, t :: resto => decide (p ≤ t.dia) && parejasDesdeB t.dia resto

/-! ### Concrete sample inputs -/

/-- A draw record with every raw draw zero. -/
def sorteos0 : Sorteos :=
  { rNumSes := 0, rDias := 0, uProg := 0, rGap := fun _ => 0,
    rHora := fun _ => 0, rMin := fun _ => 0, zPag := fun _ => 0,
    uVel := fun _ => 0, zRuido := fun _ => 0, uFactor := fun _ => 0,
    uFlip := 0 }

/-- A possible process string hash: constantly 0 (residue 0, a fast reader). -/
def hashCero : String → ℤ := fun _ => 0

/-- Another possible process string hash: constantly 99 (a slow reader). -/
def hash99 : String → ℤ := fun _ => 99

/-- A hash differing from `hashCero` but with the same residue mod 100. -/
def hashCien : String → ℤ := fun _ => 100

/-- A concrete current time (day 31 after the epoch, midnight). -/
def ahora0 : FechaHora := ⟨31, 0⟩

/-- A completed-path row: rating 5, read, a short 140-page book. -/
def filaDet : Fila :=
  { book_id := 0, user_id := 0, is_read := .val 1, rating := .val 5,
    num_pages := .val 140, genres := .falta, abandono_score := .falta,
    engagement_score := .falta, complejidad_score := .falta,
    ritmo_score := .falta }

/-- The same completed-path row, used for the time-ordering analysis. -/
def filaOrden : Fila :=
  { book_id := 0, user_id := 0, is_read := .val 1, rating := .val 5,
    num_pages := .val 140, genres := .falta, abandono_score := .falta,
    engagement_score := .falta, complejidad_score := .falta,
    ritmo_score := .falta }

/-- Draws forcing 4 sessions with gaps 0 and hours 23 then 7. -/
def sorteosOrden : Sorteos :=
  { sorteos0 with rNumSes := 1, rHora := fun i => if i = 0 then 9 else 0 }

/-- A read row whose rating cell holds NaN. -/
def filaNaN : Fila :=
  { book_id := 0, user_id := 0, is_read := .val 1, rating := .nan,
    num_pages := .falta, genres := .falta, abandono_score := .falta,
    engagement_score := .falta, complejidad_score := .falta,
    ritmo_score := .falta }

/-- A rating-1 row for a one-page book. -/
def filaPagCero : Fila :=
  { book_id := 0, user_id := 0, is_read := .val 1, rating := .val 1,
    num_pages := .val 1, genres := .falta, abandono_score := .falta,
    engagement_score := .falta, complejidad_score := .falta,
    ritmo_score := .falta }

/-- The scenario row: rating 5, read, 320 pages. -/
def fila320 : Fila :=
  { book_id := 0, user_id := 0, is_read := .val 1, rating := .val 5,
    num_pages := .val 320, genres := .falta, abandono_score := .falta,
    engagement_score := .falta, complejidad_score := .falta,
    ritmo_score := .falta }

/-- Draws putting the 320-page completed run at 16 sessions. -/
def sorteos320 : Sorteos := { sorteos0 with rNumSes := 6 }

/-! ### Basic lemmas about the random-draw embedding -/

theorem unit01_nonneg (u : ℚ) : 0 ≤ unit01 u := le_max_left 0 _

theorem unit01_le_one (u : ℚ) : unit01 u ≤ 1 := by
  unfold unit01
  exact max_le (by norm_num) (min_le_left 1 u)

theorem uniforme_mem (a b u : ℚ) (hab : a ≤ b) :
    a ≤ uniforme a b u ∧ uniforme a b u ≤ b := by
  unfold uniforme
  constructor
  · nlinarith [unit01_nonneg u, unit01_le_one u]
  · nlinarith [unit01_nonneg u, unit01_le_one u]

theorem truncInt_of_nonneg {q : ℚ} (h : 0 ≤ q) : truncInt q = ⌊q⌋ := by
  unfold truncInt
  exact if_pos h

theorem truncInt_nonneg {q : ℚ} (h : 0 ≤ q) : 0 ≤ truncInt q := by
  rw [truncInt_of_nonneg h]
  exact Int.floor_nonneg.mpr h

theorem truncInt_le {q : ℚ} (h : 0 ≤ q) : (truncInt q : ℚ) ≤ q := by
  rw [truncInt_of_nonneg h]
  exact Int.floor_le q

theorem truncInt_gt {q : ℚ} (h : 0 ≤ q) : q - 1 < (truncInt q : ℚ) := by
  rw [truncInt_of_nonneg h]
  exact Int.sub_one_lt_floor q

theorem duracion_ge_5 (p : ℤ) (perfil : String) (g : Option String)
    (uVel zRuido : ℚ) : 5 ≤ calcular_duracion_sesion p perfil g uVel zRuido :=
  le_max_left 5 _

/-! ### Lemmas about the three session loops -/

theorem ultimaProgreso_cons (s : Sesion) {l : List Sesion} (h : l ≠ []) :
    ultimaProgreso (s :: l) = ultimaProgreso l := by
  unfold ultimaProgreso
  cases l with
  | nil => exact absurd rfl h
  | cons b r => rw [List.getLast?_cons_cons]

theorem ultimaProgreso_singleton (s : Sesion) : ultimaProgreso [s] = s.progress_end :=
  rfl

theorem paginasCompletado_cotas (d : Sorteos) (np : ℤ) (ns i : ℕ) (acum : ℤ)
    (h0 : 0 ≤ acum) (h1 : acum ≤ np) :
    0 ≤ paginasCompletado d np ns i acum ∧
      acum + paginasCompletado d np ns i acum ≤ np := by
  unfold paginasCompletado
  dsimp only
  split
  · omega
  · constructor
    · exact le_min (le_trans zero_le_one (le_max_left 1 _)) (by omega)
    · have := min_le_right (max 1 (truncInt (normalMuestra
        ((((np - acum : ℤ) : ℚ) / ((ns - i : ℕ) : ℚ)) *
          (if (i : ℚ) < (ns : ℚ) * (3/10) then 13/10 else 1))
        ((((np - acum : ℤ) : ℚ) / ((ns - i : ℕ) : ℚ)) * (3/10)) (d.zPag i))))
        (np - acum)
      omega

theorem paginasCompletado_final (d : Sorteos) (np : ℤ) (ns : ℕ) (acum : ℤ) :
    paginasCompletado d np ns (ns - 1) acum = np - acum := by
  unfold paginasCompletado
  exact if_pos rfl

theorem paginasTemprano_cotas (d : Sorteos) (tot : ℤ) (ns i : ℕ) (acum : ℤ)
    (h0 : 0 ≤ acum) (h1 : acum ≤ tot) :
    0 ≤ paginasTemprano d tot ns i acum ∧
      acum + paginasTemprano d tot ns i acum ≤ tot := by
  unfold paginasTemprano
  dsimp only
  split
  · omega
  · constructor
    · exact le_min (le_trans zero_le_one (le_max_left 1 _)) (by omega)
    · have := min_le_right (max 1 (truncInt (normalMuestra
        ((((tot - acum : ℤ) : ℚ) / ((ns - i : ℕ) : ℚ)) *
          (12/10 - (i : ℚ) / (ns : ℚ)))
        ((((tot - acum : ℤ) : ℚ) / ((ns - i : ℕ) : ℚ)) * (4/10)) (d.zPag i))))
        (tot - acum)
      omega

theorem paginasTemprano_final (d : Sorteos) (tot : ℤ) (ns : ℕ) (acum : ℤ) :
    paginasTemprano d tot ns (ns - 1) acum = tot - acum := by
  unfold paginasTemprano
  dsimp only
  exact if_pos rfl

theorem paginasMedio_cotas (d : Sorteos) (tot : ℤ) (ns i : ℕ) (acum : ℤ)
    (h0 : 0 ≤ acum) (h1 : acum ≤ tot) :
    0 ≤ paginasMedio d tot ns i acum ∧
      acum + paginasMedio d tot ns i acum ≤ tot := by
  unfold paginasMedio
  dsimp only
  split
  · omega
  · constructor
    · exact le_min (le_trans zero_le_one (le_max_left 1 _)) (by omega)
    · have := min_le_right (max 1 (truncInt (normalMuestra
        ((((tot - acum : ℤ) : ℚ) / ((ns - i : ℕ) : ℚ)) *
          (if unit01 (d.uFactor i) < 3/10 then 1/2 else 1))
        ((((tot - acum : ℤ) : ℚ) / ((ns - i : ℕ) : ℚ)) * (1/2)) (d.zPag i))))
        (tot - acum)
      omega

theorem paginasMedio_final (d : Sorteos) (tot : ℤ) (ns : ℕ) (acum : ℤ) :
    paginasMedio d tot ns (ns - 1) acum = tot - acum := by
  unfold paginasMedio
  dsimp only
  exact if_pos rfl

theorem completadoAux_cadena (d : Sorteos) (bk us np : ℤ) (g : Option String)
    (pf : String) (ns : ℕ) :
    ∀ (ts : List FechaHora) (i : ℕ) (acum : ℤ),
      cadenaB acum (completadoAux d bk us np g pf ns ts i acum) = true := by
  intro ts
  induction ts with
  | nil => intro i acum; rfl
  | cons t resto ih =>
    intro i acum
    simp [completadoAux, cadenaB, ih]

theorem completadoAux_map_start (d : Sorteos) (bk us np : ℤ) (g : Option String)
    (pf : String) (ns : ℕ) :
    ∀ (ts : List FechaHora) (i : ℕ) (acum : ℤ),
      (completadoAux d bk us np g pf ns ts i acum).map Sesion.session_start = ts := by
  intro ts
  induction ts with
  | nil => intro i acum; rfl
  | cons t resto ih =>
    intro i acum
    simp only [completadoAux, List.map_cons]
    exact congrArg (t :: ·) (ih (i + 1) _)

theorem completadoAux_duraciones (d : Sorteos) (bk us np : ℤ) (g : Option String)
    (pf : String) (ns : ℕ) :
    ∀ (ts : List FechaHora) (i : ℕ) (acum : ℤ),
      duracionesMin5B (completadoAux d bk us np g pf ns ts i acum) = true := by
  intro ts
  induction ts with
  | nil => intro i acum; rfl
  | cons t resto ih =>
    intro i acum
    simp only [completadoAux, duracionesMin5B, List.all_cons, Bool.and_eq_true,
      decide_eq_true_eq]
    exact ⟨duracion_ge_5 _ _ _ _ _, ih (i + 1) _⟩

theorem completadoAux_paginas (d : Sorteos) (bk us np : ℤ) (g : Option String)
    (pf : String) (ns : ℕ) :
    ∀ (ts : List FechaHora) (i : ℕ) (acum : ℤ), 0 ≤ acum → acum ≤ np →
      paginasNoNegB (completadoAux d bk us np g pf ns ts i acum) = true := by
  intro ts
  induction ts with
  | nil => intro i acum _ _; rfl
  | cons t resto ih =>
    intro i acum h0 h1
    obtain ⟨hp0, hp1⟩ := paginasCompletado_cotas d np ns i acum h0 h1
    simp only [completadoAux, paginasNoNegB, List.all_cons, Bool.and_eq_true,
      decide_eq_true_eq]
    exact ⟨hp0, ih (i + 1) _ (by omega) hp1⟩

theorem completadoAux_ultima (d : Sorteos) (bk us np : ℤ) (g : Option String)
    (pf : String) (ns : ℕ) :
    ∀ (ts : List FechaHora) (i : ℕ) (acum : ℤ), i + ts.length = ns → ts ≠ [] →
      ultimaProgreso (completadoAux d bk us np g pf ns ts i acum) = np := by
  intro ts
  induction ts with
  | nil => intro i acum _ hne; exact absurd rfl hne
  | cons t resto ih =>
    intro i acum hlen _
    cases resto with
    | nil =>
      have hi : i = ns - 1 := by simp at hlen; omega
      subst hi
      simp only [completadoAux, paginasCompletado_final, ultimaProgreso_singleton]
      omega
    | cons t2 r2 =>
      have hne : completadoAux d bk us np g pf ns (t2 :: r2) (i + 1)
          (acum + paginasCompletado d np ns i acum) ≠ [] := by
        simp [completadoAux]
      obtain ⟨s, hs⟩ : ∃ s : Sesion,
          completadoAux d bk us np g pf ns (t :: t2 :: r2) i acum =
            s :: completadoAux d bk us np g pf ns (t2 :: r2) (i + 1)
              (acum + paginasCompletado d np ns i acum) := ⟨_, rfl⟩
      rw [hs, ultimaProgreso_cons _ hne]
      exact ih (i + 1) _ (by simp at hlen ⊢; omega) (List.cons_ne_nil _ _)

theorem tempranoAux_cadena (d : Sorteos) (bk us np tot : ℤ) (g : Option String)
    (pf : String) (ns : ℕ) :
    ∀ (ts : List FechaHora) (i : ℕ) (acum : ℤ),
      cadenaB acum (tempranoAux d bk us np tot g pf ns ts i acum) = true := by
  intro ts
  induction ts with
  | nil => intro i acum; rfl
  | cons t resto ih =>
    intro i acum
    simp [tempranoAux, cadenaB, ih]

theorem tempranoAux_map_start (d : Sorteos) (bk us np tot : ℤ) (g : Option String)
    (pf : String) (ns : ℕ) :
    ∀ (ts : List FechaHora) (i : ℕ) (acum : ℤ),
      (tempranoAux d bk us np tot g pf ns ts i acum).map Sesion.session_start = ts := by
  intro ts
  induction ts with
  | nil => intro i acum; rfl
  | cons t resto ih =>
    intro i acum
    simp only [tempranoAux, List.map_cons]
    exact congrArg (t :: ·) (ih (i + 1) _)

theorem tempranoAux_duraciones (d : Sorteos) (bk us np tot : ℤ) (g : Option String)
    (pf : String) (ns : ℕ) :
    ∀ (ts : List FechaHora) (i : ℕ) (acum : ℤ),
      duracionesMin5B (tempranoAux d bk us np tot g pf ns ts i acum) = true := by
  intro ts
  induction ts with
  | nil => intro i acum; rfl
  | cons t resto ih =>
    intro i acum
    simp only [tempranoAux, duracionesMin5B, List.all_cons, Bool.and_eq_true,
      decide_eq_true_eq]
    exact ⟨duracion_ge_5 _ _ _ _ _, ih (i + 1) _⟩

theorem tempranoAux_paginas (d : Sorteos) (bk us np tot : ℤ) (g : Option String)
    (pf : String) (ns : ℕ) :
    ∀ (ts : List FechaHora) (i : ℕ) (acum : ℤ), 0 ≤ acum → acum ≤ tot →
      paginasNoNegB (tempranoAux d bk us np tot g pf ns ts i acum) = true := by
  intro ts
  induction ts with
  | nil => intro i acum _ _; rfl
  | cons t resto ih =>
    intro i acum h0 h1
    obtain ⟨hp0, hp1⟩ := paginasTemprano_cotas d tot ns i acum h0 h1
    simp only [tempranoAux, paginasNoNegB, List.all_cons, Bool.and_eq_true,
      decide_eq_true_eq]
    exact ⟨hp0, ih (i + 1) _ (by omega) hp1⟩

theorem tempranoAux_ultima (d : Sorteos) (bk us np tot : ℤ) (g : Option String)
    (pf : String) (ns : ℕ) :
    ∀ (ts : List FechaHora) (i : ℕ) (acum : ℤ), i + ts.length = ns → ts ≠ [] →
      ultimaProgreso (tempranoAux d bk us np tot g pf ns ts i acum) = tot := by
  intro ts
  induction ts with
  | nil => intro i acum _ hne; exact absurd rfl hne
  | cons t resto ih =>
    intro i acum hlen _
    cases resto with
    | nil =>
      have hi : i = ns - 1 := by simp at hlen; omega
      subst hi
      simp only [tempranoAux, paginasTemprano_final, ultimaProgreso_singleton]
      omega
    | cons t2 r2 =>
      have hne : tempranoAux d bk us np tot g pf ns (t2 :: r2) (i + 1)
          (acum + paginasTemprano d tot ns i acum) ≠ [] := by
        simp [tempranoAux]
      obtain ⟨s, hs⟩ : ∃ s : Sesion,
          tempranoAux d bk us np tot g pf ns (t :: t2 :: r2) i acum =
            s :: tempranoAux d bk us np tot g pf ns (t2 :: r2) (i + 1)
              (acum + paginasTemprano d tot ns i acum) := ⟨_, rfl⟩
      rw [hs, ultimaProgreso_cons _ hne]
      exact ih (i + 1) _ (by simp at hlen ⊢; omega) (List.cons_ne_nil _ _)

theorem medioAux_cadena (d : Sorteos) (bk us np tot : ℤ) (g : Option String)
    (pf : String) (ns : ℕ) :
    ∀ (ts : List FechaHora) (i : ℕ) (acum : ℤ),
      cadenaB acum (medioAux d bk us np tot g pf ns ts i acum) = true := by
  intro ts
  induction ts with
  | nil => intro i acum; rfl
  | cons t resto ih =>
    intro i acum
    simp [medioAux, cadenaB, ih]

theorem medioAux_map_start (d : Sorteos) (bk us np tot : ℤ) (g : Option String)
    (pf : String) (ns : ℕ) :
    ∀ (ts : List FechaHora) (i : ℕ) (acum : ℤ),
      (medioAux d bk us np tot g pf ns ts i acum).map Sesion.session_start = ts := by
  intro ts
  induction ts with
  | nil => intro i acum; rfl
  | cons t resto ih =>
    intro i acum
    simp only [medioAux, List.map_cons]
    exact congrArg (t :: ·) (ih (i + 1) _)

theorem medioAux_duraciones (d : Sorteos) (bk us np tot : ℤ) (g : Option String)
    (pf : String) (ns : ℕ) :
    ∀ (ts : List FechaHora) (i : ℕ) (acum : ℤ),
      duracionesMin5B (medioAux d bk us np tot g pf ns ts i acum) = true := by
  intro ts
  induction ts with
  | nil => intro i acum; rfl
  | cons t resto ih =>
    intro i acum
    simp only [medioAux, duracionesMin5B, List.all_cons, Bool.and_eq_true,
      decide_eq_true_eq]
    exact ⟨duracion_ge_5 _ _ _ _ _, ih (i + 1) _⟩

theorem medioAux_paginas (d : Sorteos) (bk us np tot : ℤ) (g : Option String)
    (pf : String) (ns : ℕ) :
    ∀ (ts : List FechaHora) (i : ℕ) (acum : ℤ), 0 ≤ acum → acum ≤ tot →
      paginasNoNegB (medioAux d bk us np tot g pf ns ts i acum) = true := by
  intro ts
  induction ts with
  | nil => intro i acum _ _; rfl
  | cons t resto ih =>
    intro i acum h0 h1
    obtain ⟨hp0, hp1⟩ := paginasMedio_cotas d tot ns i acum h0 h1
    simp only [medioAux, paginasNoNegB, List.all_cons, Bool.and_eq_true,
      decide_eq_true_eq]
    exact ⟨hp0, ih (i + 1) _ (by omega) hp1⟩

theorem medioAux_ultima (d : Sorteos) (bk us np tot : ℤ) (g : Option String)
    (pf : String) (ns : ℕ) :
    ∀ (ts : List FechaHora) (i : ℕ) (acum : ℤ), i + ts.length = ns → ts ≠ [] →
      ultimaProgreso (medioAux d bk us np tot g pf ns ts i acum) = tot := by
  intro ts
  induction ts with
  | nil => intro i acum _ hne; exact absurd rfl hne
  | cons t resto ih =>
    intro i acum hlen _
    cases resto with
    | nil =>
      have hi : i = ns - 1 := by simp at hlen; omega
      subst hi
      simp only [medioAux, paginasMedio_final, ultimaProgreso_singleton]
      omega
    | cons t2 r2 =>
      have hne : medioAux d bk us np tot g pf ns (t2 :: r2) (i + 1)
          (acum + paginasMedio d tot ns i acum) ≠ [] := by
        simp [medioAux]
      obtain ⟨s, hs⟩ : ∃ s : Sesion,
          medioAux d bk us np tot g pf ns (t :: t2 :: r2) i acum =
            s :: medioAux d bk us np tot g pf ns (t2 :: r2) (i + 1)
              (acum + paginasMedio d tot ns i acum) := ⟨_, rfl⟩
      rw [hs, ultimaProgreso_cons _ hne]
      exact ih (i + 1) _ (by simp at hlen ⊢; omega) (List.cons_ne_nil _ _)

/-! ### Lemmas about the temporal pattern -/

theorem patronAux_length (d : Sorteos) (ns : ℕ) :
    ∀ (fuel i : ℕ) (dia : ℤ), (patronAux d ns i fuel dia).length = fuel := by
  intro fuel
  induction fuel with
  | zero => intro i dia; rfl
  | succ n ih =>
    intro i dia
    simp [patronAux, ih]

theorem generar_patron_length (ns : ℕ) (fini : FechaHora) (d : Sorteos) :
    (generar_patron_temporal_sesiones ns fini d).length = ns := by
  unfold generar_patron_temporal_sesiones
  exact patronAux_length d ns ns 0 fini.dia

theorem patronAux_desde (d : Sorteos) (ns : ℕ) :
    ∀ (fuel i : ℕ) (dia : ℤ),
      parejasDesdeB dia (patronAux d ns i fuel dia) = true := by
  intro fuel
  induction fuel with
  | zero => intro i dia; rfl
  | succ n ih =>
    intro i dia
    simp only [patronAux, parejasDesdeB, Bool.and_eq_true, decide_eq_true_eq]
    constructor
    · have : (0 : ℤ) ≤ ((if (i : ℚ) < (ns : ℚ) * (3/10) then
          [0, 1, 1, 2, 3].getD (d.rGap i % 5) 0
        else [1, 2, 3, 4, 5, 7].getD (d.rGap i % 6) 0 : ℕ) : ℤ) := Int.ofNat_nonneg _
      omega
    · exact ih (i + 1) _

theorem parejasDesde_parejas : ∀ (l : List FechaHora) (p : ℤ),
    parejasDesdeB p l = true → parejasDiasB l = true := by
  intro l
  induction l with
  | nil => intro p _; rfl
  | cons t resto ih =>
    intro p hp
    simp only [parejasDesdeB, Bool.and_eq_true, decide_eq_true_eq] at hp
    cases resto with
    | nil => rfl
    | cons t2 r2 =>
      have h2 := hp.2
      simp only [parejasDesdeB, Bool.and_eq_true, decide_eq_true_eq] at h2
      simp only [parejasDiasB, Bool.and_eq_true, decide_eq_true_eq]
      exact ⟨h2.1, ih t.dia hp.2⟩

theorem generar_patron_parejas (ns : ℕ) (fini : FechaHora) (d : Sorteos) :
    parejasDiasB (generar_patron_temporal_sesiones ns fini d) = true :=
  parejasDesde_parejas _ fini.dia
    (by unfold generar_patron_temporal_sesiones; exact patronAux_desde d ns ns 0 fini.dia)

theorem diasNoDec_por_map : ∀ (l : List Sesion),
    diasNoDecrecientesB l = parejasDiasB (l.map Sesion.session_start) := by
  intro l
  induction l with
  | nil => rfl
  | cons a resto ih =>
    cases resto with
    | nil => rfl
    | cons b r2 =>
      simp only [diasNoDecrecientesB, parejasDiasB, List.map_cons]
      rw [ih]
      simp [parejasDiasB]

/-! ### Wrapper-level lemmas for the three generators -/

theorem numSesionesCompletado_pos (np : ℤ) (d : Sorteos) :
    0 < numSesionesCompletado np d := by
  unfold numSesionesCompletado
  split_ifs <;> omega

theorem numSesionesTemprano_pos (d : Sorteos) : 0 < numSesionesTemprano d := by
  unfold numSesionesTemprano
  omega

theorem numSesionesMedio_pos (d : Sorteos) : 0 < numSesionesMedio d := by
  unfold numSesionesMedio
  omega

theorem progresoTemprano_cotas (np : ℤ) (hnp : 0 ≤ np) (d : Sorteos) :
    0 ≤ progresoTemprano np d ∧ progresoTemprano np d ≤ np ∧
      (np : ℚ) * (5/100) - 1 < (progresoTemprano np d : ℚ) ∧
      (progresoTemprano np d : ℚ) ≤ (np : ℚ) * (30/100) := by
  have hnpq : (0 : ℚ) ≤ (np : ℚ) := by exact_mod_cast hnp
  have hv := uniforme_mem (5/100) (30/100) d.uProg (by norm_num)
  have hx0 : (0 : ℚ) ≤ (np : ℚ) * uniforme (5/100) (30/100) d.uProg :=
    mul_nonneg hnpq (le_trans (by norm_num) hv.1)
  have hlow : (np : ℚ) * (5/100) ≤ (np : ℚ) * uniforme (5/100) (30/100) d.uProg :=
    mul_le_mul_of_nonneg_left hv.1 hnpq
  have hhigh : (np : ℚ) * uniforme (5/100) (30/100) d.uProg ≤ (np : ℚ) * (30/100) :=
    mul_le_mul_of_nonneg_left hv.2 hnpq
  have h1 := truncInt_nonneg hx0
  have h2 := truncInt_le hx0
  have h3 := truncInt_gt hx0
  unfold progresoTemprano
  refine ⟨h1, ?_, by linarith, by linarith⟩
  have : (progresoTemprano np d : ℚ) ≤ (np : ℚ) := by
    unfold progresoTemprano
    nlinarith
  have := this
  unfold progresoTemprano at this
  exact_mod_cast this

theorem progresoMedio_cotas (np : ℤ) (hnp : 0 ≤ np) (d : Sorteos) :
    0 ≤ progresoMedio np d ∧ progresoMedio np d ≤ np ∧
      (np : ℚ) * (30/100) - 1 < (progresoMedio np d : ℚ) ∧
      (progresoMedio np d : ℚ) ≤ (np : ℚ) * (70/100) := by
  have hnpq : (0 : ℚ) ≤ (np : ℚ) := by exact_mod_cast hnp
  have hv := uniforme_mem (30/100) (70/100) d.uProg (by norm_num)
  have hx0 : (0 : ℚ) ≤ (np : ℚ) * uniforme (30/100) (70/100) d.uProg :=
    mul_nonneg hnpq (le_trans (by norm_num) hv.1)
  have hlow : (np : ℚ) * (30/100) ≤ (np : ℚ) * uniforme (30/100) (70/100) d.uProg :=
    mul_le_mul_of_nonneg_left hv.1 hnpq
  have hhigh : (np : ℚ) * uniforme (30/100) (70/100) d.uProg ≤ (np : ℚ) * (70/100) :=
    mul_le_mul_of_nonneg_left hv.2 hnpq
  have h1 := truncInt_nonneg hx0
  have h2 := truncInt_le hx0
  have h3 := truncInt_gt hx0
  unfold progresoMedio
  refine ⟨h1, ?_, by linarith, by linarith⟩
  have : (progresoMedio np d : ℚ) ≤ (np : ℚ) := by
    unfold progresoMedio
    nlinarith
  have := this
  unfold progresoMedio at this
  exact_mod_cast this

theorem completado_cadena (bk us np : ℤ) (g : Option String) (r : Option ℚ)
    (hf : String → ℤ) (ahora : FechaHora) (d : Sorteos) :
    cadenaB 0 (simular_sesiones_completado bk us np g r hf ahora d) = true := by
  simp only [simular_sesiones_completado]
  exact completadoAux_cadena d bk us np g _ _ _ 0 0

theorem completado_duraciones (bk us np : ℤ) (g : Option String) (r : Option ℚ)
    (hf : String → ℤ) (ahora : FechaHora) (d : Sorteos) :
    duracionesMin5B (simular_sesiones_completado bk us np g r hf ahora d) = true := by
  simp only [simular_sesiones_completado]
  exact completadoAux_duraciones d bk us np g _ _ _ 0 0

theorem completado_paginas (bk us np : ℤ) (hnp : 0 ≤ np) (g : Option String)
    (r : Option ℚ) (hf : String → ℤ) (ahora : FechaHora) (d : Sorteos) :
    paginasNoNegB (simular_sesiones_completado bk us np g r hf ahora d) = true := by
  simp only [simular_sesiones_completado]
  exact completadoAux_paginas d bk us np g _ _ _ 0 0 le_rfl hnp

theorem completado_dias (bk us np : ℤ) (g : Option String) (r : Option ℚ)
    (hf : String → ℤ) (ahora : FechaHora) (d : Sorteos) :
    diasNoDecrecientesB (simular_sesiones_completado bk us np g r hf ahora d) = true := by
  simp only [simular_sesiones_completado]
  rw [diasNoDec_por_map, completadoAux_map_start]
  exact generar_patron_parejas _ _ _

theorem completado_length (bk us np : ℤ) (g : Option String) (r : Option ℚ)
    (hf : String → ℤ) (ahora : FechaHora) (d : Sorteos) :
    (simular_sesiones_completado bk us np g r hf ahora d).length =
      numSesionesCompletado np d := by
  simp only [simular_sesiones_completado]
  rw [← List.length_map _ Sesion.session_start, completadoAux_map_start,
    generar_patron_length]

theorem completado_ultima (bk us np : ℤ) (g : Option String) (r : Option ℚ)
    (hf : String → ℤ) (ahora : FechaHora) (d : Sorteos) :
    ultimaProgreso (simular_sesiones_completado bk us np g r hf ahora d) = np := by
  simp only [simular_sesiones_completado]
  apply completadoAux_ultima
  · rw [generar_patron_length]; omega
  · apply List.length_pos.mp
    rw [generar_patron_length]
    exact numSesionesCompletado_pos np d

theorem temprano_cadena (bk us np : ℤ) (g : Option String) (r : Option ℚ)
    (hf : String → ℤ) (ahora : FechaHora) (d : Sorteos) :
    cadenaB 0 (simular_sesiones_abandono_temprano bk us np g r hf ahora d) = true := by
  simp only [simular_sesiones_abandono_temprano]
  exact tempranoAux_cadena d bk us np _ g _ _ _ 0 0

theorem temprano_duraciones (bk us np : ℤ) (g : Option String) (r : Option ℚ)
    (hf : String → ℤ) (ahora : FechaHora) (d : Sorteos) :
    duracionesMin5B (simular_sesiones_abandono_temprano bk us np g r hf ahora d) = true := by
  simp only [simular_sesiones_abandono_temprano]
  exact tempranoAux_duraciones d bk us np _ g _ _ _ 0 0

theorem temprano_paginas (bk us np : ℤ) (hnp : 0 ≤ np) (g : Option String)
    (r : Option ℚ) (hf : String → ℤ) (ahora : FechaHora) (d : Sorteos) :
    paginasNoNegB (simular_sesiones_abandono_temprano bk us np g r hf ahora d) = true := by
  simp only [simular_sesiones_abandono_temprano]
  exact tempranoAux_paginas d bk us np _ g _ _ _ 0 0 le_rfl
    (progresoTemprano_cotas np hnp d).1

theorem temprano_dias (bk us np : ℤ) (g : Option String) (r : Option ℚ)
    (hf : String → ℤ) (ahora : FechaHora) (d : Sorteos) :
    diasNoDecrecientesB (simular_sesiones_abandono_temprano bk us np g r hf ahora d) = true := by
  simp only [simular_sesiones_abandono_temprano]
  rw [diasNoDec_por_map, tempranoAux_map_start]
  exact generar_patron_parejas _ _ _

theorem temprano_length (bk us np : ℤ) (g : Option String) (r : Option ℚ)
    (hf : String → ℤ) (ahora : FechaHora) (d : Sorteos) :
    (simular_sesiones_abandono_temprano bk us np g r hf ahora d).length =
      numSesionesTemprano d := by
  simp only [simular_sesiones_abandono_temprano]
  rw [← List.length_map _ Sesion.session_start, tempranoAux_map_start,
    generar_patron_length]

theorem temprano_ultima (bk us np : ℤ) (g : Option String) (r : Option ℚ)
    (hf : String → ℤ) (ahora : FechaHora) (d : Sorteos) :
    ultimaProgreso (simular_sesiones_abandono_temprano bk us np g r hf ahora d) =
      progresoTemprano np d := by
  simp only [simular_sesiones_abandono_temprano]
  apply tempranoAux_ultima
  · rw [generar_patron_length]; omega
  · apply List.length_pos.mp
    rw [generar_patron_length]
    exact numSesionesTemprano_pos d

theorem medio_cadena (bk us np : ℤ) (g : Option String) (r : Option ℚ)
    (hf : String → ℤ) (ahora : FechaHora) (d : Sorteos) :
    cadenaB 0 (simular_sesiones_abandono_medio bk us np g r hf ahora d) = true := by
  simp only [simular_sesiones_abandono_medio]
  exact medioAux_cadena d bk us np _ g _ _ _ 0 0

theorem medio_duraciones (bk us np : ℤ) (g : Option String) (r : Option ℚ)
    (hf : String → ℤ) (ahora : FechaHora) (d : Sorteos) :
    duracionesMin5B (simular_sesiones_abandono_medio bk us np g r hf ahora d) = true := by
  simp only [simular_sesiones_abandono_medio]
  exact medioAux_duraciones d bk us np _ g _ _ _ 0 0

theorem medio_paginas (bk us np : ℤ) (hnp : 0 ≤ np) (g : Option String)
    (r : Option ℚ) (hf : String → ℤ) (ahora : FechaHora) (d : Sorteos) :
    paginasNoNegB (simular_sesiones_abandono_medio bk us np g r hf ahora d) = true := by
  simp only [simular_sesiones_abandono_medio]
  exact medioAux_paginas d bk us np _ g _ _ _ 0 0 le_rfl
    (progresoMedio_cotas np hnp d).1

theorem medio_dias (bk us np : ℤ) (g : Option String) (r : Option ℚ)
    (hf : String → ℤ) (ahora : FechaHora) (d : Sorteos) :
    diasNoDecrecientesB (simular_sesiones_abandono_medio bk us np g r hf ahora d) = true := by
  simp only [simular_sesiones_abandono_medio]
  rw [diasNoDec_por_map, medioAux_map_start]
  exact generar_patron_parejas _ _ _

theorem medio_ultima (bk us np : ℤ) (g : Option String) (r : Option ℚ)
    (hf : String → ℤ) (ahora : FechaHora) (d : Sorteos) :
    ultimaProgreso (simular_sesiones_abandono_medio bk us np g r hf ahora d) =
      progresoMedio np d := by
  simp only [simular_sesiones_abandono_medio]
  apply medioAux_ultima
  · rw [generar_patron_length]; omega
  · apply List.length_pos.mp
    rw [generar_patron_length]
    exact numSesionesMedio_pos d

/-! ### Case analysis of the dispatcher, and hash-congruence -/

theorem sesionesDe_ok (l : List Sesion) : sesionesDe (.ok l) = l := rfl

theorem sesionesDe_error (e : String) : sesionesDe (.error e) = [] := rfl

theorem casos_generados (fila : Fila) (hf : String → ℤ) (ahora : FechaHora)
    (d : Sorteos) (P : List Sesion → Prop) (h0 : P [])
    (hc : ∀ (np : ℤ), 1 ≤ np → ∀ (g : Option String) (r : Option ℚ),
      P (simular_sesiones_completado fila.book_id fila.user_id np g r hf ahora d))
    (ht : ∀ (np : ℤ), 1 ≤ np → ∀ (g : Option String) (r : Option ℚ),
      P (simular_sesiones_abandono_temprano fila.book_id fila.user_id np g r hf ahora d))
    (hm : ∀ (np : ℤ), 1 ≤ np → ∀ (g : Option String) (r : Option ℚ),
      P (simular_sesiones_abandono_medio fila.book_id fila.user_id np g r hf ahora d)) :
    P (sesionesDe (simular_para_interaccion fila hf ahora d)) := by
  have hnp : (1 : ℤ) ≤ max 1 fila.num_pages.valor := le_max_left _ _
  simp only [simular_para_interaccion]
  split
  · rw [sesionesDe_ok]; exact h0
  · split
    · rw [sesionesDe_ok]; exact hc _ hnp _ _
    · split
      · rw [sesionesDe_ok]; exact ht _ hnp _ _
      · split
        · rw [sesionesDe_error]; exact h0
        · split
          · split
            · rw [sesionesDe_ok]; exact ht _ hnp _ _
            · rw [sesionesDe_ok]; exact hm _ hnp _ _
          · rw [sesionesDe_ok]; exact hc _ hnp _ _

theorem perfil_congr (hf1 hf2 : String → ℤ) (uid : ℤ)
    (hh : hf1 (toString uid) % 100 = hf2 (toString uid) % 100) :
    determinar_perfil_lector hf1 uid = determinar_perfil_lector hf2 uid := by
  unfold determinar_perfil_lector
  rw [hh]

theorem completado_congr (bk us : ℤ) (hf1 hf2 : String → ℤ) (ahora : FechaHora)
    (d : Sorteos) (hh : hf1 (toString us) % 100 = hf2 (toString us) % 100) :
    ∀ (np : ℤ) (g : Option String) (r : Option ℚ),
      simular_sesiones_completado bk us np g r hf1 ahora d =
        simular_sesiones_completado bk us np g r hf2 ahora d := by
  intro np g r
  unfold simular_sesiones_completado
  rw [perfil_congr hf1 hf2 us hh]

theorem temprano_congr (bk us : ℤ) (hf1 hf2 : String → ℤ) (ahora : FechaHora)
    (d : Sorteos) (hh : hf1 (toString us) % 100 = hf2 (toString us) % 100) :
    ∀ (np : ℤ) (g : Option String) (r : Option ℚ),
      simular_sesiones_abandono_temprano bk us np g r hf1 ahora d =
        simular_sesiones_abandono_temprano bk us np g r hf2 ahora d := by
  intro np g r
  unfold simular_sesiones_abandono_temprano
  rw [perfil_congr hf1 hf2 us hh]

theorem medio_congr (bk us : ℤ) (hf1 hf2 : String → ℤ) (ahora : FechaHora)
    (d : Sorteos) (hh : hf1 (toString us) % 100 = hf2 (toString us) % 100) :
    ∀ (np : ℤ) (g : Option String) (r : Option ℚ),
      simular_sesiones_abandono_medio bk us np g r hf1 ahora d =
        simular_sesiones_abandono_medio bk us np g r hf2 ahora d := by
  intro np g r
  unfold simular_sesiones_abandono_medio
  rw [perfil_congr hf1 hf2 us hh]

/-! ### Claim theorems -/

/-- Claim C1 (confirmed): for every session sequence generated by
`simular_para_interaccion` for one interaction, the progress values chain:
the first session's `progress_start` is 0, each later session's
`progress_start` equals the previous session's `progress_end`, and
`pages_read = progress_end - progress_start` in every session. -/
theorem progreso_encadenado (fila : Fila) (hf : String → ℤ) (ahora : FechaHora)
    (d : Sorteos) :
    cadenaB 0 (sesionesDe (simular_para_interaccion fila hf ahora d)) = true :=
  casos_generados fila hf ahora d (fun l => cadenaB 0 l = true) rfl
    (fun np _ g r => completado_cadena fila.book_id fila.user_id np g r hf ahora d)
    (fun np _ g r => temprano_cadena fila.book_id fila.user_id np g r hf ahora d)
    (fun np _ g r => medio_cadena fila.book_id fila.user_id np g r hf ahora d)

/-- Claim C4, amended: within every generated session sequence the day
component of `session_start` never decreases; strict increase of the full
timestamp does not hold in general (a 0-day gap may combine with an
earlier hour). -/
theorem dias_de_sesion_no_decrecientes (fila : Fila) (hf : String → ℤ)
    (ahora : FechaHora) (d : Sorteos) :
    diasNoDecrecientesB (sesionesDe (simular_para_interaccion fila hf ahora d)) = true :=
  casos_generados fila hf ahora d (fun l => diasNoDecrecientesB l = true) rfl
    (fun np _ g r => completado_dias fila.book_id fila.user_id np g r hf ahora d)
    (fun np _ g r => temprano_dias fila.book_id fila.user_id np g r hf ahora d)
    (fun np _ g r => medio_dias fila.book_id fila.user_id np g r hf ahora d)

set_option maxRecDepth 8000 in
/-- Claim C4 counterexample: a concrete completed-path run (4 sessions,
consecutive 0-day gaps, hour 23 followed by hour 7 on the same day) whose
`session_start` values do not strictly increase. -/
theorem inicio_sesiones_no_estricto :
    crecienteB (sesionesDe (simular_para_interaccion filaOrden hashCero
      ahora0 sorteosOrden)) = false := by
  with_unfolding_all decide

/-- Claim C8 (confirmed): every generated session lasts at least 5
minutes, and the duration formula is words (pages times the genre's
words-per-page) over a speed drawn from the profile's range, plus noise
with sigma 10% of the base, floored at 5. -/
theorem duracion_minima_cinco :
    (∀ (fila : Fila) (hf : String → ℤ) (ahora : FechaHora) (d : Sorteos),
      duracionesMin5B (sesionesDe (simular_para_interaccion fila hf ahora d)) = true) ∧
    (∀ (p : ℤ) (pf : String) (g : Option String) (uv zr : ℚ),
      calcular_duracion_sesion p pf g uv zr =
        max 5 ((p : ℚ) * palabras_por_pagina g /
            uniforme (velocidad_lectura_palabras_min pf).1
              (velocidad_lectura_palabras_min pf).2 uv +
          (p : ℚ) * palabras_por_pagina g /
            uniforme (velocidad_lectura_palabras_min pf).1
              (velocidad_lectura_palabras_min pf).2 uv * (1/10) * zr)) := by
  constructor
  · intro fila hf ahora d
    exact casos_generados fila hf ahora d (fun l => duracionesMin5B l = true) rfl
      (fun np _ g r => completado_duraciones fila.book_id fila.user_id np g r hf ahora d)
      (fun np _ g r => temprano_duraciones fila.book_id fila.user_id np g r hf ahora d)
      (fun np _ g r => medio_duraciones fila.book_id fila.user_id np g r hf ahora d)
  · intro p pf g uv zr
    unfold calcular_duracion_sesion normalMuestra
    dsimp only
    congr 1
    ring

/-- Claim C9, amended: every generated session has `pages_read ≥ 0`;
`pages_read ≥ 1` does not hold, because a session may read 0 pages once
the path's target progress is exhausted (e.g. when the abandonment target
rounds down to 0 for a very short book). -/
theorem paginas_no_negativas (fila : Fila) (hf : String → ℤ)
    (ahora : FechaHora) (d : Sorteos) :
    paginasNoNegB (sesionesDe (simular_para_interaccion fila hf ahora d)) = true :=
  casos_generados fila hf ahora d (fun l => paginasNoNegB l = true) rfl
    (fun np hnp g r => completado_paginas fila.book_id fila.user_id np
      (by omega) g r hf ahora d)
    (fun np hnp g r => temprano_paginas fila.book_id fila.user_id np
      (by omega) g r hf ahora d)
    (fun np hnp g r => medio_paginas fila.book_id fila.user_id np
      (by omega) g r hf ahora d)

set_option maxRecDepth 8000 in
/-- Claim C9 counterexample: a rating-1 interaction with a 1-page book
produces a session with `pages_read = 0` (the early-abandonment target
`int(1 * 0.05) = 0`), refuting `pages_read ≥ 1`. -/
theorem sesion_con_cero_paginas :
    paginasAlMenos1B (sesionesDe (simular_para_interaccion filaPagCero
      hashCero ahora0 sorteos0)) = false := by
  with_unfolding_all decide

/-- Claim C5 (confirmed): the rating-3 abandonment probability used by the
coin flip — base 0.40 plus the four review-feature adjustments, clamped —
always lies in [0,1], and equals exactly 0.60 for `abandono_score = 0.8`
with the other scores 0. -/
theorem probabilidad_ajustada_acotada :
    (∀ ab eng comp rit : Option ℚ,
      0 ≤ prob_abandono_ajustada 3 ab eng comp rit ∧
        prob_abandono_ajustada 3 ab eng comp rit ≤ 1) ∧
    prob_abandono_ajustada 3 (some (8/10)) (some 0) (some 0) (some 0) = 6/10 := by
  constructor
  · intro ab eng comp rit
    unfold prob_abandono_ajustada
    exact ⟨le_max_left 0 _, max_le (by norm_num) (min_le_left _ _)⟩
  · with_unfolding_all decide

/-- Claim C2 (confirmed): for every page count, the completed path ends at
exactly `num_pages`; the early-abandonment path ends within [5%, 30%] of
`num_pages` (1 page of `int()` rounding slack below); the midway path ends
within [30%, 70%]; and every path's final progress is at most `num_pages`. -/
theorem ley_progreso_objetivo (np : ℕ) (bk us : ℤ) (g : Option String)
    (r : Option ℚ) (hf : String → ℤ) (ahora : FechaHora) (d : Sorteos) :
    ultimaProgreso (simular_sesiones_completado bk us (np : ℤ) g r hf ahora d) = (np : ℤ) ∧
    (ultimaProgreso (simular_sesiones_abandono_temprano bk us (np : ℤ) g r hf ahora d) ≤ (np : ℤ) ∧
      (np : ℚ) * (5/100) - 1 ≤
        (ultimaProgreso (simular_sesiones_abandono_temprano bk us (np : ℤ) g r hf ahora d) : ℚ) ∧
      (ultimaProgreso (simular_sesiones_abandono_temprano bk us (np : ℤ) g r hf ahora d) : ℚ) ≤
        (np : ℚ) * (30/100)) ∧
    (ultimaProgreso (simular_sesiones_abandono_medio bk us (np : ℤ) g r hf ahora d) ≤ (np : ℤ) ∧
      (np : ℚ) * (30/100) - 1 ≤
        (ultimaProgreso (simular_sesiones_abandono_medio bk us (np : ℤ) g r hf ahora d) : ℚ) ∧
      (ultimaProgreso (simular_sesiones_abandono_medio bk us (np : ℤ) g r hf ahora d) : ℚ) ≤
        (np : ℚ) * (70/100)) := by
  have hnp : (0 : ℤ) ≤ (np : ℤ) := Int.ofNat_nonneg np
  obtain ⟨ht0, ht1, ht2, ht3⟩ := progresoTemprano_cotas (np : ℤ) hnp d
  obtain ⟨hm0, hm1, hm2, hm3⟩ := progresoMedio_cotas (np : ℤ) hnp d
  rw [completado_ultima, temprano_ultima, medio_ultima]
  exact ⟨rfl, ⟨ht1, le_of_lt ht2, ht3⟩, ⟨hm1, le_of_lt hm2, hm3⟩⟩

set_option maxRecDepth 8000 in
/-- Claim C3 counterexample: with the numpy seed fixed (the same draw
record) and the same clock value, two runs in separate processes — two
admissible salted string hashes — give different session sequences for the
same input row: the reader profile changes and with it every duration. -/
theorem determinismo_entre_procesos_refutado :
    sesionesDe (simular_para_interaccion filaDet hashCero ahora0 sorteos0) ≠
      sesionesDe (simular_para_interaccion filaDet hash99 ahora0 sorteos0) := by
  with_unfolding_all decide

/-- Claim C3, amended: determinism holds per process: the simulation result
is a function of the input row, the seeded draw stream, the clock value,
and the process string hash only through the residue
`hash(str(user_id)) % 100` — two hash functions agreeing on that residue
give identical output. -/
theorem determinismo_por_proceso (fila : Fila) (hf1 hf2 : String → ℤ)
    (ahora : FechaHora) (d : Sorteos)
    (hh : hf1 (toString fila.user_id) % 100 = hf2 (toString fila.user_id) % 100) :
    simular_para_interaccion fila hf1 ahora d =
      simular_para_interaccion fila hf2 ahora d := by
  simp only [simular_para_interaccion,
    completado_congr fila.book_id fila.user_id hf1 hf2 ahora d hh,
    temprano_congr fila.book_id fila.user_id hf1 hf2 ahora d hh,
    medio_congr fila.book_id fila.user_id hf1 hf2 ahora d hh]

/-- Witness for the amended C3 theorem: two distinct hash functions with
equal residue mod 100 give identical output on a concrete row. -/
theorem determinismo_por_proceso_testigo :
    hashCero (toString filaDet.user_id) % 100 =
        hashCien (toString filaDet.user_id) % 100 ∧
      simular_para_interaccion filaDet hashCero ahora0 sorteos0 =
        simular_para_interaccion filaDet hashCien ahora0 sorteos0 :=
  ⟨by decide, determinismo_por_proceso filaDet hashCero hashCien ahora0 sorteos0
    (by decide)⟩

/-- Claim C6 counterexample: the reader profile is not stable across runs:
two admissible salted string hashes (two processes) assign user 7 the
profiles "rapido" and "lento" respectively. -/
theorem perfil_distinto_entre_procesos :
    determinar_perfil_lector hashCero 7 ≠ determinar_perfil_lector hash99 7 := by
  decide

/-- Claim C6, amended: within one process the profile is a pure function of
`hash(str(user_id)) % 100` with cut points 20 and 75, and of the 100
residues exactly 20 map to "rapido", 55 to "medio" and 25 to "lento";
stability across runs fails because the hash salt changes. -/
theorem perfil_por_residuo :
    (∀ (hf1 hf2 : String → ℤ) (uid : ℤ),
      hf1 (toString uid) % 100 = hf2 (toString uid) % 100 →
        determinar_perfil_lector hf1 uid = determinar_perfil_lector hf2 uid) ∧
    (∀ (hf : String → ℤ) (uid : ℤ),
      (hf (toString uid) % 100 < 20 → determinar_perfil_lector hf uid = "rapido") ∧
      (20 ≤ hf (toString uid) % 100 → hf (toString uid) % 100 < 75 →
        determinar_perfil_lector hf uid = "medio") ∧
      (75 ≤ hf (toString uid) % 100 → determinar_perfil_lector hf uid = "lento")) ∧
    ((List.range 100).filter
      (fun r => determinar_perfil_lector (fun _ => (r : ℤ)) 0 == "rapido")).length = 20 ∧
    ((List.range 100).filter
      (fun r => determinar_perfil_lector (fun _ => (r : ℤ)) 0 == "medio")).length = 55 ∧
    ((List.range 100).filter
      (fun r => determinar_perfil_lector (fun _ => (r : ℤ)) 0 == "lento")).length = 25 := by
  refine ⟨fun hf1 hf2 uid hh => perfil_congr hf1 hf2 uid hh, ?_, by decide, by decide, by decide⟩
  intro hf uid
  unfold determinar_perfil_lector
  refine ⟨fun h => if_pos h, fun h1 h2 => ?_, fun h => ?_⟩
  · rw [if_neg (by omega), if_pos h2]
  · rw [if_neg (by omega), if_neg (by omega)]

/-- Witness for the amended C6 theorem: concrete residue-equal hashes give
the same profile, and residue 0 maps to "rapido". -/
theorem perfil_por_residuo_testigo :
    (hashCero (toString (7 : ℤ)) % 100 = hashCien (toString (7 : ℤ)) % 100 ∧
      determinar_perfil_lector hashCero 7 = determinar_perfil_lector hashCien 7) ∧
    (hashCero (toString (7 : ℤ)) % 100 < 20 ∧
      determinar_perfil_lector hashCero 7 = "rapido") :=
  ⟨⟨by decide, perfil_por_residuo.1 hashCero hashCien 7 (by decide)⟩,
   ⟨by decide, (perfil_por_residuo.2.1 hashCero 7).1 (by decide)⟩⟩

/-- Claim C7 counterexample: a row with `is_read = 1` and a NaN rating
reaches `int(rating)` in the rating-medium branch and raises (Python
`ValueError`), so the core does not return a list for every malformed row. -/
theorem excepcion_con_rating_nan :
    esExito (simular_para_interaccion filaNaN hashCero ahora0 sorteos0) = false := by
  with_unfolding_all decide

/-- Claim C7, amended: for every row in which the rating cell is not NaN,
or `is_read == 0` holds (the no-data case), the per-interaction simulation
raises nothing and returns a (possibly empty) session list, substituting
defaults for missing or invalid `num_pages`, genre and review scores; the
only raising rows are NaN rating with `is_read ≠ 0`. -/
theorem sin_excepcion_si_rating_valido (fila : Fila) (hf : String → ℤ)
    (ahora : FechaHora) (d : Sorteos)
    (hok : fila.rating.obtener 3 ≠ none ∨ pyEq (fila.is_read.obtener 0) 0 = true) :
    ∃ l, simular_para_interaccion fila hf ahora d = .ok l := by
  cases hr : fila.rating.obtener 3 with
  | none =>
    rcases hok with h | h
    · exact absurd hr h
    · exact ⟨[], by simp [simular_para_interaccion, hr, h]⟩
  | some q =>
    simp only [simular_para_interaccion, hr]
    repeat' split
    all_goals exact ⟨_, rfl⟩

/-- Witness for the amended C7 theorem: a concrete well-formed row yields a
session list. -/
theorem sin_excepcion_si_rating_valido_testigo :
    (filaDet.rating.obtener 3 ≠ none ∨ pyEq (filaDet.is_read.obtener 0) 0 = true) ∧
    ∃ l, simular_para_interaccion filaDet hashCero ahora0 sorteos0 = .ok l :=
  ⟨Or.inl (by decide),
   sin_excepcion_si_rating_valido filaDet hashCero ahora0 sorteos0 (Or.inl (by decide))⟩

/-- Claim C10 counterexample: with rating 5, `is_read = 1` and 320 pages,
a legal draw (`randint(10, 25)` returning 16) produces 16 sessions, so the
session count is not between 6 and 15; 320 pages falls in the 300-499
bracket, not the medium one. -/
theorem escenario_320_sesiones_fuera_de_rango :
    ¬(6 ≤ (sesionesDe (simular_para_interaccion fila320 hashCero ahora0
          sorteos320)).length ∧
      (sesionesDe (simular_para_interaccion fila320 hashCero ahora0
          sorteos320)).length ≤ 15) := by
  have hsim : simular_para_interaccion fila320 hashCero ahora0 sorteos320 =
      .ok (simular_sesiones_completado 0 0 320 (Campo.obtenerGenero .falta)
        (some 5) hashCero ahora0 sorteos320) := by
    with_unfolding_all rfl
  rw [hsim, sesionesDe_ok, completado_length]
  have hns : numSesionesCompletado 320 sorteos320 = 16 := by decide
  omega

/-- Claim C10, amended: an interaction with rating 5, `is_read = 1` and
`num_pages = 320` takes the Completed path, generates between 10 and 24
sessions (the 300-499-page bracket draws `randint(10, 25)`), and the final
session's `progress_end` equals 320. -/
theorem escenario_320_completado (b u : ℤ) (gen : Campo String)
    (s1 s2 s3 s4 : Campo ℚ) (hf : String → ℤ) (ahora : FechaHora) (d : Sorteos) :
    simular_para_interaccion
        ⟨b, u, .val 1, .val 5, .val 320, gen, s1, s2, s3, s4⟩ hf ahora d =
      .ok (simular_sesiones_completado b u 320 gen.obtenerGenero (some 5) hf ahora d) ∧
    10 ≤ (simular_sesiones_completado b u 320 gen.obtenerGenero (some 5) hf ahora d).length ∧
    (simular_sesiones_completado b u 320 gen.obtenerGenero (some 5) hf ahora d).length ≤ 24 ∧
    ultimaProgreso (simular_sesiones_completado b u 320 gen.obtenerGenero
      (some 5) hf ahora d) = 320 := by
  have hns : numSesionesCompletado 320 d = 10 + d.rNumSes % 15 := by
    unfold numSesionesCompletado
    norm_num
  have hmod : d.rNumSes % 15 < 15 := Nat.mod_lt _ (by norm_num)
  refine ⟨by with_unfolding_all rfl, ?_, ?_, completado_ultima b u 320 _ _ hf ahora d⟩
  · rw [completado_length, hns]
    omega
  · rw [completado_length, hns]
    omega

end SimLectura
